import Mathlib

/-!
Verification of the shift-recon rule-evaluation engine (src/analyzer.py with
the rule tables of src/config.py) against its natural-language specification.

Shallow-embedding conventions:

* Timestamps are integer seconds on a timeline where second 0 opens
  proleptic-Gregorian ordinal day 1 (0001-01-01, a Monday), so that
  `dayOfDT t = t.fdiv 86400 + 1` is the ordinal of the calendar date of `t`
  and agrees with `ymd2ord`.
* A raw cell of a date column is a `RawDT`: `missing` (NaN or the empty
  string), `bad s` (non-empty but unparseable by `pd.to_datetime`), or
  `good t` (parses to the timestamp `t`).
* Missing cells of string columns are modelled as `""` (Python truthiness
  of the empty string matches; NaN cells of string columns are not
  distinguished from `""`).
* Python floats are modelled as exact rationals.
* pandas `groupby` is modelled by `groupKeys`/`groupOf`; pandas emits groups
  in sorted key order while we emit them in order of first occurrence — every
  property proved below is insensitive to the order of the issue list.
* The free-text `details` string of an issue dictionary is not modelled as a
  formatted string; the data interpolated into it is carried in structured
  fields of `Issue` (`diff_location`, `diff_shift`, `overlap_minutes`,
  `shift_details`, `rate_actual`).
-/

/-- State of one raw cell of a date/time column. -/
inductive RawDT where
  | missing : RawDT
  | bad : String → RawDT
  | good : Int → RawDT
deriving DecidableEq

/-- Value of the 'Actual Pay Rate' cell: a numeric value or something
`float()` rejects. -/
inductive PyRate where
  | num : ℚ → PyRate
  | nonNum : PyRate
deriving DecidableEq

/-- One row of the input table (column names in comments). -/
structure Row where
  employee : String            -- 'Actual Employee Name'
  start_raw : RawDT            -- 'Actual Start Date And Time'
  end_raw : RawDT              -- 'Actual End Date And Time'
  location : String            -- 'Service Location Name'
  service_type : String        -- 'Actual Service Type Description'
  rate_type : String           -- 'Actual Pay Rate Type'
  requirement_type : String    -- 'Actual Service Requirement Type Description'
  pay_rate : Option PyRate     -- 'Actual Pay Rate' (None / numeric / non-numeric)
  sheet_desc : String          -- 'Actual Pay Rate Sheet Description'
  row_num : Int                -- '_row_num'
deriving DecidableEq

/-- One issue dictionary (structured rendering of the dict built by the
checkers; the free-text `details` payload is in the extra fields). -/
structure Issue where
  issue_type : String
  employee_name : String
  date : Option Int := none            -- ordinal day held by the 'date' key
  week : Option String := none
  actual_hours : Option ℚ := none
  limit_hours : Option ℚ := none
  shift_type : String := ""
  overlap_minutes : Option Int := none
  diff_location : Bool := false        -- details mention 'different locations'
  diff_shift : Bool := false           -- details mention 'different shift types'
  shift_details : List (String × String × Int × Int) := []
    -- (service type, location, start, end) of each shift named in details
  rate_actual : Option ℚ := none       -- actual rate named in details
  row_numbers : List Int := []
deriving DecidableEq

/-- One error-row dictionary (the echo fields `start_date`/`end_date` that
merely repeat raw cell contents are omitted). `row_number = none` renders
the literal 'N/A' used for analysis errors. -/
structure ErrorRow where
  row_number : Option Int
  employee_name : String
  shift_type : String
  errors : List String
deriving DecidableEq

/-- Result dictionary of `analyze_workforce_data`. -/
structure AnalysisResult where
  duplicate_allocations : List Issue
  over_allocations : List Issue
  unallowed_combinations : List Issue
  error_rows : List ErrorRow
  total_issues : Nat
  total_errors : Nat
  total_valid_rows : Nat
  total_rows : Nat
deriving DecidableEq

/-! ## Configuration (src/config.py) -/

/-- Value of one SHIFT_TYPE_LIMITS entry. -/
structure LimitConfig where
  operator : String
  value : ℚ
deriving DecidableEq

/-- SHIFT_TYPE_LIMITS from src/config.py (every entry is in dict form). -/
def SHIFT_TYPE_LIMITS : List ((String × String) × LimitConfig) := [
  (("Day Shift", "Hourly"), ⟨"<=", 15⟩),
  (("Floating Shift", "Hourly"), ⟨"<", 6⟩),
  (("L - Day Shift", "Fixed"), ⟨"<=", 15⟩),
  (("Sleep In Shift", "Fixed"), ⟨"<=", 12⟩),
  (("Waking Night Shift", "Hourly"), ⟨"<=", 12⟩),
  (("Care Call Shift", "Hourly"), ⟨"<=", 14⟩),
  (("Day Support", "Zero"), ⟨"<=", 15⟩),
  (("Floating Support", "Zero"), ⟨"<=", 4⟩),
  (("Sleep In Support", "Zero"), ⟨"<=", 12⟩),
  (("Waking Night Support", "Zero"), ⟨"<=", 12⟩),
  (("Ad hoc Shift", "Fixed"), ⟨">=", 6⟩),
  (("Ad hoc Shift", "Hourly"), ⟨"<", 6⟩),
  (("Driver Shift", "Hourly"), ⟨"<=", 4⟩),
  (("On Call Shift", "Fixed"), ⟨"<=", 12⟩),
  (("Shift Lead - Shift", "Fixed"), ⟨"<=", 8⟩),
  (("Training", "Hourly"), ⟨"<=", 8⟩),
  (("Shadow", "Hourly"), ⟨"<=", 6⟩),
  (("Paid Sleep In ", "Fixed"), ⟨"<=", 10⟩)]

/-- EMPLOYEE_HOUR_LIMITS from src/config.py: deployed empty. -/
def EMPLOYEE_HOUR_LIMITS : List (String × ℚ) := []

/-- DEFAULT_HOUR_LIMIT from src/config.py. -/
def DEFAULT_HOUR_LIMIT : ℚ := -1

/-- ALLOWED_COMBINATIONS from src/config.py. -/
def ALLOWED_COMBINATIONS : List (String × String) := [
  ("Day Shift", "Long Day"),
  ("Floating Shift", "Cover"),
  ("L - Day Shift", "L - Shift"),
  ("Sleep In Shift", "Sleep In"),
  ("Waking Night Shift", "Waking Nights"),
  ("Care Call Shift", "1. AM Call"),
  ("Care Call Shift", "2. Lunch Call"),
  ("Care Call Shift", "3. Tea Call"),
  ("Care Call Shift", "4. PM Call"),
  ("Care Call Shift", "Community Care Call"),
  ("Day Support", "Day Support"),
  ("Floating Support", "Cover"),
  ("Sleep In Support", "Sleep In"),
  ("Waking Night Support", "Waking Nights"),
  ("Ad hoc Shift", "Duties"),
  ("Driver Shift", "Duties"),
  ("On Call Shift", "On Call"),
  ("Shift Lead - Shift", "Day Support"),
  ("Training", "Training"),
  ("Shadow", "Shadow"),
  ("Paid Sleep In", "Sleep In")]

/-- A key of the RATE_CARD_MAP dict. In Python the key `("…")` is a plain
`str` (parentheses do not make a 1-tuple), `("…",)` is a 1-tuple and
`("…", "…")` a 2-tuple; the three are pairwise unequal, which this inductive
type mirrors. -/
inductive RateKey where
  | pystr : String → RateKey
  | tup1 : String → RateKey
  | tup2 : String → String → RateKey
deriving DecidableEq

/-- RATE_CARD_MAP from src/config.py. Its first entry is written
`("Zero Hour Pay Rates (SL)"): 13.85` in the source, i.e. a plain string
key, not a 1-tuple. -/
def RATE_CARD_MAP : List (RateKey × ℚ) := [
  (.pystr "Zero Hour Pay Rates (SL)", 13.85),
  (.tup2 "Level 1- Mnchetr/Ptrbrgh" "Hourly", 12.82),
  (.tup2 "Level 2- Mnchetr/Ptrbrgh" "Hourly", 12.92),
  (.tup2 "Level 3- Mnchetr/Ptrbrgh" "Hourly", 13.02),
  (.tup2 "Level 1 - Central Beds, Beds, Bucks, Gloce" "Hourly", 12.93),
  (.tup2 "Level 2 - Central Beds, Beds, Bucks, Gloce" "Hourly", 13.02),
  (.tup2 "Level 3 - Central Beds, Beds, Bucks, Gloce" "Hourly", 13.12),
  (.tup2 "Level 1 - Oxford,Herts,Kent and Cormwall" "Hourly", 13.09),
  (.tup2 "Level 2 - Oxford,Herts,Kent and Cormwall" "Hourly", 13.19),
  (.tup2 "Level 3 - Oxford, Herts, Kent, Cormwall" "Hourly", 13.29),
  (.tup2 "Level 1 - Barnet" "Hourly", 13.39),
  (.tup2 "Level 2 - Barnet" "Hourly", 13.49),
  (.tup2 "Level 3 - Barnet" "Hourly", 13.59),
  (.tup2 "Home Care" "Hourly", 16.35),
  (.tup2 "Live In Shift per day" "Fixed", 137.00),
  (.tup2 "Sleep In Shift" "Hourly", 30.00),
  (.tup2 "Ad hoc shift" "Fixed", 161.00),
  (.tup2 "Ad hoc shift" "Hourly", 13.42),
  (.tup2 "Live In Shift per week for all staff" "Fixed", 1169.00)]

/-- ALLOWED_SAME_LOCATION_OVERLAPS, defined inline in
`check_duplicate_allocations` (src/analyzer.py lines 108-121). -/
def ALLOWED_SAME_LOCATION_OVERLAPS : List (String × String) := [
  ("Day Shift", "Floating Shift"),
  ("Floating Shift", "Day Shift"),
  ("L - Day Shift", "Floating Shift"),
  ("Floating Shift", "L - Day Shift"),
  ("Waking Night Shift", "Floating Shift"),
  ("Floating Shift", "Waking Night Shift"),
  ("L - Day Shift", "Sleep In Shift"),
  ("Floating Shift", "Floating Shift"),
  ("Day Shift", "Day Shift"),
  ("Shift Lead - Shift", "Floating Shift"),
  ("On Call Shift", "On Call Shift"),
  ("L - Day Shift", "L - Day Shift")]

/-! ## Time and unit normalizer (src/analyzer.py lines 8-30) -/

/-- `parse_datetime`: None on NaN/empty input or parse failure, else the
parsed timestamp. -/
def parse_datetime : RawDT → Option Int
  | .missing => none
  | .bad _ => none
  | .good t => some t

/-- Ordinal of the calendar date of a timestamp (`x.date()`). -/
def dayOfDT (t : Int) : Int := t.fdiv 86400 + 1

/-- `calculate_hours`: 0 when an endpoint is None, else the signed
difference in hours (`delta.total_seconds() / 3600`). -/
def calculate_hours : Option Int → Option Int → ℚ
  | some s, some e => ((e - s : Int) : ℚ) / 3600
  | _, _ => 0

/-- A calendar date, for the `isocalendar`/`year` development. -/
structure Date where
  year : Int
  month : Nat
  day : Nat
deriving DecidableEq

/-- Gregorian leap-year test (CPython `_is_leap`). -/
def is_leap (y : Int) : Bool := y % 4 == 0 && (y % 100 != 0 || y % 400 == 0)

/-- CPython `_days_before_year`. -/
def days_before_year (y : Int) : Int :=
  (y - 1) * 365 + (y - 1).fdiv 4 - (y - 1).fdiv 100 + (y - 1).fdiv 400

/-- CPython `_days_before_month`. -/
def days_before_month (y : Int) (m : Nat) : Int :=
  (List.getD [0, 31, 59, 90, 120, 151, 181, 212, 243, 273, 304, 334] (m - 1) 0 : Int) +
    (if 2 < m ∧ is_leap y then 1 else 0)

/-- CPython `_ymd2ord`: proleptic-Gregorian ordinal, 0001-01-01 is day 1. -/
def ymd2ord (y : Int) (m d : Nat) : Int :=
  days_before_year y + days_before_month y m + (d : Int)

/-- CPython `_isoweek1monday`: ordinal of the Monday opening ISO week 1 of
`year`. -/
def isoweek1monday (year : Int) : Int :=
  let firstday := ymd2ord year 1 1
  let firstweekday := (firstday + 6) % 7
  let week1monday := firstday - firstweekday
  if 3 < firstweekday then week1monday + 7 else week1monday

/-- CPython `date.isocalendar()`: (ISO year, ISO week 1-53, ISO weekday
1-7 with Monday = 1). -/
def isocalendar (dt : Date) : Int × Int × Int :=
  let today := ymd2ord dt.year dt.month dt.day
  let w1m := isoweek1monday dt.year
  let week := (today - w1m).fdiv 7
  if week < 0 then
    let w1mPrev := isoweek1monday (dt.year - 1)
    (dt.year - 1, (today - w1mPrev).fdiv 7 + 1, (today - w1mPrev) % 7 + 1)
  else if 52 ≤ week ∧ isoweek1monday (dt.year + 1) ≤ today then
    (dt.year + 1, 1, (today - w1m) % 7 + 1)
  else
    (dt.year, week + 1, (today - w1m) % 7 + 1)

/-- `get_week_number` (src/analyzer.py lines 18-23): `(None, None)` for a
None input, else `(dt.isocalendar()[1], dt.year)`. -/
def get_week_number : Option Date → Option Int × Option Int
  | none => (none, none)
  | some dt => (some (isocalendar dt).2.1, some dt.year)

/-- Inverse of `ymd2ord` (Hinnant civil-from-days, shifted to ordinals):
used only to state the independent ISO-week characterization. -/
def civilFromOrd (n : Int) : Int × Int × Int :=
  let z := n + 305
  let era := z.fdiv 146097
  let doe := z - era * 146097
  let yoe := (doe - doe.fdiv 1460 + doe.fdiv 36524 - doe.fdiv 146096).fdiv 365
  let y := yoe + era * 400
  let doy := doe - (365 * yoe + yoe.fdiv 4 - yoe.fdiv 100)
  let mp := (5 * doy + 2).fdiv 153
  let d := doy - (153 * mp + 2).fdiv 5 + 1
  let m := mp + (if mp < 10 then 3 else -9)
  (y + (if m ≤ 2 then 1 else 0), m, d)

/-- Ordinal of the Monday of the Monday-start week containing ordinal `n`
(ordinal 1 is a Monday). -/
def mondayOfWeek (n : Int) : Int := n - (n + 6) % 7

/-- Specification-side ISO-8601 (year, week) of an ordinal: the calendar
year of the Thursday of the date's Monday-start week, and the index of that
Thursday among the Thursdays of its calendar year. -/
def isoSpecOfOrd (n : Int) : Int × Int :=
  let thu := mondayOfWeek n + 3
  let y := (civilFromOrd thu).1
  (y, (thu - ymd2ord y 1 1).fdiv 7 + 1)

/-! ## Shared row helpers (the parsed columns added by the checkers) -/

/-- Column `start_dt`. -/
def startDT (r : Row) : Option Int := parse_datetime r.start_raw

/-- Column `end_dt`. -/
def endDT (r : Row) : Option Int := parse_datetime r.end_raw

/-- Column `date` (`x.date() if x else None`). -/
def dateOf (r : Row) : Option Int := (startDT r).map dayOfDT

/-- Column `hours`. -/
def hoursOf (r : Row) : ℚ := calculate_hours (startDT r) (endDT r)

/-- Grouping key of `groupby(['Actual Employee Name', 'date'])`; `none`
when the date is null (pandas drops NaN keys, and both checkers also guard
on a None date). -/
def keyOf (r : Row) : Option (String × Int) := (dateOf r).map (fun d => (r.employee, d))

/-- The group keys of a frame (order of first occurrence; pandas emits
groups in sorted key order, which no property below depends on). -/
def groupKeys (df : List Row) : List (String × Int) := (df.filterMap keyOf).dedup

/-- The rows of one group. -/
def groupOf (df : List Row) (k : String × Int) : List Row :=
  df.filter (fun r => decide (keyOf r = some k))

/-! ## Overlap detector: `check_duplicate_allocations`
(src/analyzer.py lines 32-187) -/

/-- Substring test on character lists. -/
def containsSub (needle : List Char) : List Char → Bool
  | [] => needle.isEmpty
  | c :: rest => needle.isPrefixOf (c :: rest) || containsSub needle rest

/-- `str.contains('shift', case=False, na=False)` on the service-type
description. -/
def containsShiftCI (s : String) : Bool := containsSub "shift".toList s.toLower.toList

/-- Sort key of `sort_values('start_dt')` (ascending, stable, NaT last). -/
def startLEb (a b : Row) : Bool :=
  match startDT a, startDT b with
  | some s, some t => decide (s ≤ t)
  | some _, none => true
  | none, some _ => false
  | none, none => true

/-- All index pairs i < j of a list, as ordered element pairs. -/
def allPairs : List Row → List (Row × Row)
  | [] => []
  | x :: xs => xs.map (fun y => (x, y)) ++ allPairs xs

/-- Body of the double loop of `check_duplicate_allocations` for the pair
(i, j) = (a, b): `none` when the pair is skipped, otherwise the issue
dictionary built for it (flag data and issue construction fused — the
source stores the pair and builds the dictionary from the same rows
afterwards). -/
def pairIssue? (emp : String) (a b : Row) : Option Issue :=
  match startDT a, endDT a, startDT b, endDT b with
  | some s1, some e1, some s2, some e2 =>
    if s1 < e2 ∧ s2 < e1 then
      if ((min e1 e2 - max s1 s2 : Int) : ℚ) / 60 > 15 then
        if a.location = b.location ∧
            (a.service_type, b.service_type) ∈ ALLOWED_SAME_LOCATION_OVERLAPS then
          none
        else
          some { issue_type := "Duplicate Allocation",
                 employee_name := emp,
                 date := some (dayOfDT s1),
                 overlap_minutes := some ((min e1 e2 - max s1 s2).fdiv 60),
                 diff_location := decide (a.location ≠ "" ∧ b.location ≠ "" ∧ a.location ≠ b.location),
                 diff_shift := decide (a.service_type ≠ "" ∧ b.service_type ≠ "" ∧
                   a.service_type ≠ b.service_type),
                 shift_details := [(a.service_type, a.location, s1, e1),
                                   (b.service_type, b.location, s2, e2)],
                 row_numbers := [a.row_num, b.row_num] }
      else none
    else none
  | _, _, _, _ => none

/-- Issues of one (employee, date) group: pairs in i < j order over the
start-sorted rows. -/
def dupGroupIssues (emp : String) (rows : List Row) : List Issue :=
  (allPairs (List.insertionSort (fun a b => startLEb a b = true) rows)).filterMap
    (fun p => pairIssue? emp p.1 p.2)

/-- `check_duplicate_allocations`. -/
def check_duplicate_allocations (df : List Row) : List Issue :=
  let dff := df.filter (fun r => containsShiftCI r.service_type)
  (groupKeys dff).flatMap (fun k =>
    let g := groupOf dff k
    if 2 ≤ g.length then dupGroupIssues k.1 g else [])

/-! ## Quota checker: `check_over_allocations`
(src/analyzer.py lines 189-270) -/

/-- Dict lookup in SHIFT_TYPE_LIMITS. -/
def lookupLimit (combo : String × String) : Option LimitConfig :=
  (SHIFT_TYPE_LIMITS.find? (fun kv => decide (kv.1 = combo))).map (fun kv => kv.2)

/-- The if/elif operator dispatch of `check_over_allocations`: does the
total violate the configured comparison? -/
def comboViolation (op : String) (limit total : ℚ) : Bool :=
  if op = "<=" then decide (limit < total)
  else if op = ">=" then decide (total < limit)
  else if op = "<" then decide (limit ≤ total)
  else if op = ">" then decide (total ≤ limit)
  else if op = "==" then decide (total ≠ limit)
  else false

/-- Issues of one (employee, date) group: one per violated
(service type, rate type) combination present in SHIFT_TYPE_LIMITS. -/
def comboIssues (emp : String) (d : Int) (g : List Row) : List Issue :=
  ((g.map (fun r => (r.service_type, r.rate_type))).dedup).filterMap (fun combo =>
    match lookupLimit combo with
    | none => none
    | some lc =>
      let cg := g.filter (fun r => decide ((r.service_type, r.rate_type) = combo))
      let total := (cg.map hoursOf).sum
      if comboViolation lc.operator lc.value total then
        some { issue_type := "Shift Type Hour Over-allocation",
               employee_name := emp,
               date := some d,
               actual_hours := some total,
               limit_hours := some lc.value,
               shift_type := combo.1 ++ " (" ++ combo.2 ++ ")",
               row_numbers := cg.map (fun r => r.row_num) }
      else none)

/-- `check_over_allocations`. -/
def check_over_allocations (df : List Row) : List Issue :=
  (groupKeys df).flatMap (fun k => comboIssues k.1 k.2 (groupOf df k))

/-! ## Whitelist checker: `check_unallowed_combinations`
(src/analyzer.py lines 273-303) -/

/-- `check_unallowed_combinations`. -/
def check_unallowed_combinations (df : List Row) : List Issue :=
  df.filterMap (fun r =>
    if r.service_type = "" ∨ r.requirement_type = "" then none
    else if (r.service_type, r.requirement_type) ∈ ALLOWED_COMBINATIONS then none
    else
      some { issue_type := "Unallowed Combination",
             employee_name := r.employee,
             date := (parse_datetime r.start_raw).map dayOfDT,
             shift_type := r.service_type,
             row_numbers := [r.row_num] })

/-! ## Rate checker: `check_rate_mismatches`
(src/analyzer.py lines 305-345) -/

/-- Dict lookup in RATE_CARD_MAP. -/
def lookupRate (k : RateKey) : Option ℚ :=
  (RATE_CARD_MAP.find? (fun kv => decide (kv.1 = k))).map (fun kv => kv.2)

/-- `check_rate_mismatches`. The row-level try/except swallows both a
non-numeric actual rate (`float` failure) and the `AttributeError` raised
while building the issue dictionary when the raw start string is non-empty
but unparseable (`parse_datetime(...)` is None and `.date()` is called on
it); in both cases the row is skipped silently. -/
def check_rate_mismatches (df : List Row) : List Issue :=
  df.filterMap (fun r =>
    let sheet_desc := r.sheet_desc.trim
    let rate_type := r.rate_type.trim
    let service_type := r.service_type.trim
    let expected : Option ℚ :=
      match lookupRate (.tup1 sheet_desc) with
      | some v => some v
      | none => lookupRate (.tup2 service_type rate_type)
    match expected, r.pay_rate with
    | some exp, some pr =>
      match pr with
      | .nonNum => none
      | .num actual =>
        if |actual - exp| > 1 / 100 then
          match r.start_raw with
          | .bad _ => none
          | .missing =>
            some { issue_type := "Rate Mismatch", employee_name := r.employee,
                   date := none, limit_hours := some exp, rate_actual := some actual,
                   shift_type := service_type, row_numbers := [r.row_num] }
          | .good t =>
            some { issue_type := "Rate Mismatch", employee_name := r.employee,
                   date := some (dayOfDT t), limit_hours := some exp, rate_actual := some actual,
                   shift_type := service_type, row_numbers := [r.row_num] }
        else none
    | _, _ => none)

/-- Modelled from the spec (§4.4 "Aggregate hours"): sum the hours of each
(employee, time-bucket) group, look the employee up in
`employeeHourLimits` falling back to `defaultHourLimit`, skip when the
effective limit is negative, and emit an OverAllocation issue naming the
total and the limit when the total exceeds it. No such check exists in
src/analyzer.py (EMPLOYEE_HOUR_LIMITS and DEFAULT_HOUR_LIMIT are imported
but never used); this definition follows the spec's words so that the
claim can be compared with `check_over_allocations`. -/
def specAggregateHoursIssues (employeeHourLimits : List (String × ℚ))
    (defaultHourLimit : ℚ) (df : List Row) : List Issue :=
  (groupKeys df).filterMap (fun k =>
    let g := groupOf df k
    let total := (g.map hoursOf).sum
    let lim := ((employeeHourLimits.find? (fun kv => decide (kv.1 = k.1))).map
      (fun kv => kv.2)).getD defaultHourLimit
    if lim < 0 then none
    else if lim < total then
      some { issue_type := "Over-allocation",
             employee_name := k.1,
             date := some k.2,
             actual_hours := some total,
             limit_hours := some lim,
             row_numbers := g.map (fun r => r.row_num) }
    else none)

/-! ## Orchestrator: `analyze_workforce_data`
(src/analyzer.py lines 349-451) -/

/-- `df['_row_num'] = range(2, len(df) + 2)`. -/
def numberRows (df : List Row) : List Row :=
  df.enum.map (fun p => { p.2 with row_num := (p.1 : Int) + 2 })

/-- The accumulated validation failure messages of one row (missing
critical columns, then unparseable non-empty dates). -/
def rowErrors (r : Row) : List String :=
  (if r.employee = "" then ["Missing Actual Employee Name"] else []) ++
  (if r.start_raw = .missing then ["Missing Actual Start Date And Time"] else []) ++
  (if r.end_raw = .missing then ["Missing Actual End Date And Time"] else []) ++
  (if r.service_type = "" then ["Missing Actual Service Type Description"] else []) ++
  (match r.start_raw with
   | .bad s => ["Invalid start date format: " ++ s]
   | _ => []) ++
  (match r.end_raw with
   | .bad s => ["Invalid end date format: " ++ s]
   | _ => [])

/-- The quarantined rows reported by the row-validation pass. -/
def validationErrorRows (df : List Row) : List ErrorRow :=
  (numberRows df).filterMap (fun r =>
    if rowErrors r = [] then none
    else some ⟨some r.row_num, r.employee, r.service_type, rowErrors r⟩)

/-- `valid_df`: the rows that survive the row-validation pass. -/
def validRowsOf (df : List Row) : List Row :=
  (numberRows df).filter (fun r => decide (rowErrors r = []))

/-- The synthetic error row recorded when a checker raises. -/
def analysisErrorRow (tag msg : String) : ErrorRow :=
  ⟨none, "ANALYSIS ERROR", tag, [msg]⟩

/-- The orchestrator with the three checker call sites abstracted: a
checker that raises is modelled by a slot returning `.error msg` (the
try/except of the source catches it, records the synthetic error row and
contributes an empty list). `analyze_workforce_data` is the instance at
the real checkers, which are total. -/
def analyze_with (dup over unall : List Row → Except String (List Issue))
    (df : List Row) : AnalysisResult :=
  let valid := validRowsOf df
  let errs0 := validationErrorRows df
  let dupPart := match dup valid with
    | .ok v => (v, ([] : List ErrorRow))
    | .error e => ([], [analysisErrorRow "Duplicate Check" ("Error in duplicate check: " ++ e)])
  let overPart := match over valid with
    | .ok v => (v, ([] : List ErrorRow))
    | .error e => ([], [analysisErrorRow "Over-allocation Check" ("Error in over-allocation check: " ++ e)])
  let unallPart := match unall valid with
    | .ok v => (v, ([] : List ErrorRow))
    | .error e => ([], [analysisErrorRow "Unallowed Combinations Check" ("Error in unallowed combinations check: " ++ e)])
  { duplicate_allocations := dupPart.1,
    over_allocations := overPart.1,
    unallowed_combinations := unallPart.1,
    error_rows := errs0 ++ dupPart.2 ++ overPart.2 ++ unallPart.2,
    total_issues := dupPart.1.length + overPart.1.length + unallPart.1.length,
    total_errors := (errs0 ++ dupPart.2 ++ overPart.2 ++ unallPart.2).length,
    total_valid_rows := valid.length,
    total_rows := (numberRows df).length }

/-- `analyze_workforce_data`: the deployed orchestrator. It invokes the
duplicate, over-allocation and unallowed-combination checkers only;
`check_rate_mismatches` has no call site in the repository. -/
def analyze_workforce_data (df : List Row) : AnalysisResult :=
  analyze_with (fun v => .ok (check_duplicate_allocations v))
    (fun v => .ok (check_over_allocations v))
    (fun v => .ok (check_unallowed_combinations v)) df

/-! ## Concrete inputs used by witnesses and counterexamples.
Ordinal day 8 (0001-01-08, a Monday) starts at second 604800; ordinal day 9
(a Tuesday of the same ISO week) starts at second 691200. -/

/-- A shift row with a parseable start and end and no pay-rate data. -/
def mkShift (emp : String) (s e : Int) (loc svc rt rq : String) (n : Int) : Row :=
  ⟨emp, .good s, .good e, loc, svc, rt, rq, none, "", n⟩

/-- The calendar date of an ordinal (inverse of `ymd2ord`). -/
def dateOfOrd (n : Int) : Date :=
  ⟨(civilFromOrd n).1, (civilFromOrd n).2.1.toNat, (civilFromOrd n).2.2.toNat⟩

/-- One-day validation of the embedded `isocalendar` against the
independent ISO-8601 characterization `isoSpecOfOrd`: the ordinal
round-trips through `dateOfOrd` and the (ISO year, ISO week) pair of the
embedded CPython algorithm matches the Thursday-rule characterization. -/
def isoCheckOrd (n : Int) : Bool :=
  ymd2ord (dateOfOrd n).year (dateOfOrd n).month (dateOfOrd n).day == n &&
  (isocalendar (dateOfOrd n)).1 == (isoSpecOfOrd n).1 &&
  (isocalendar (dateOfOrd n)).2.1 == (isoSpecOfOrd n).2

/-- Row whose end precedes its start by two hours (10:00 to 08:00 of
ordinal day 8). -/
def c9row : Row :=
  ⟨"A", .good 640800, .good 633600, "L", "Day Shift", "Hourly", "Long Day", none, "", 0⟩

/-- Row whose pay-rate sheet description equals the rate card's
string-keyed entry, whose actual rate 99.00 is far from that entry's
expected 13.85, and whose (service type, rate type) pair has no rate-card
entry. -/
def c8row : Row :=
  ⟨"A", .good 637200, .good 666000, "L", "Day Shift", "Zero", "Long Day",
   some (.num 99), "Zero Hour Pay Rates (SL)", 2⟩

/-- Row for C2: employee Alice works 20 hours on ordinal day 8 with a
(service type, rate type) pair that has no SHIFT_TYPE_LIMITS entry. -/
def c2row : Row := ⟨"Alice", .good 604800, .good 676800, "L", "X", "Y", "Z", none, "", 2⟩

/-- Row for witnesses: 16 hours of Day Shift/Hourly on ordinal day 8. -/
def c2wrow : Row := mkShift "E" 604800 662400 "L" "Day Shift" "Hourly" "Long Day" 2

/-- The combo issue `check_over_allocations` emits for `[c2wrow]`. -/
def c2wiss : Issue :=
  { issue_type := "Shift Type Hour Over-allocation", employee_name := "E", date := some 8,
    actual_hours := some 16, limit_hours := some 15, shift_type := "Day Shift (Hourly)",
    row_numbers := [2] }

/-- C1 counterexample frame: 16 one-hour "Day Shift"/"Hourly" records of
one employee, 8 on ordinal day 8 (Monday) and 8 on ordinal day 9 (Tuesday),
both days in ISO week (1, 2). -/
def cex1 : List Row :=
  (List.range 8).map (fun i =>
    mkShift "E" (604800 + i * 7200) (604800 + i * 7200 + 3600) "L" "Day Shift" "Hourly" "Long Day" (2 + i)) ++
  (List.range 8).map (fun i =>
    mkShift "E" (691200 + i * 7200) (691200 + i * 7200 + 3600) "L" "Day Shift" "Hourly" "Long Day" (10 + i))

/-- Row for the C1 witness: 16 hours of Day Shift/Hourly on ordinal day 8. -/
def c1wrow : Row := mkShift "E" 604800 662400 "L" "Day Shift" "Hourly" "Long Day" 2

/-- The issue `check_over_allocations` emits for `[c1wrow]`. -/
def c1wiss : Issue :=
  { issue_type := "Shift Type Hour Over-allocation", employee_name := "E", date := some 8,
    actual_hours := some 16, limit_hours := some 15, shift_type := "Day Shift (Hourly)",
    row_numbers := [2] }

/-- C4 witness rows: same employee and day, 09:00-17:00 and 16:45-20:00 at
different locations — exactly 15 minutes of overlap. -/
def c4t1 : Row := mkShift "J" 637200 666000 "L1" "Day Shift" "Hourly" "Long Day" 2

/-- Second row of the 15-minute pair. -/
def c4t2 : Row := mkShift "J" 665100 676800 "L2" "Day Shift" "Hourly" "Long Day" 3

/-- C4 witness rows: as above but 16:44-20:00 — 16 minutes of overlap. -/
def c4r1 : Row := mkShift "J" 637200 666000 "L1" "Day Shift" "Hourly" "Long Day" 2

/-- Second row of the 16-minute pair. -/
def c4r2 : Row := mkShift "J" 665040 676800 "L2" "Day Shift" "Hourly" "Long Day" 3

/-- C5 witness rows: same location, allow-listed ordered pair
("Day Shift", "Floating Shift"), seven hours of overlap. -/
def c5a1 : Row := mkShift "K" 637200 666000 "Loc" "Day Shift" "Hourly" "Long Day" 2

/-- Second row of the allow-listed pair. -/
def c5a2 : Row := mkShift "K" 640800 669600 "Loc" "Floating Shift" "Hourly" "Cover" 3

/-- C5 witness rows: same shifts at different locations. -/
def c5b1 : Row := mkShift "K" 637200 666000 "A" "Day Shift" "Hourly" "Long Day" 2

/-- Second row of the flagged pair. -/
def c5b2 : Row := mkShift "K" 640800 669600 "B" "Floating Shift" "Hourly" "Cover" 3

/-- C6 witness rows: a whitelisted pair and a non-whitelisted pair. -/
def c6ok : Row := mkShift "W" 637200 666000 "L" "Training" "Hourly" "Training" 2

/-- Row whose (service type, requirement type) pair is not whitelisted. -/
def c6bad : Row := mkShift "W" 637200 666000 "L" "Unknown" "Hourly" "Foo" 3

/-- C7 row: a valid row whose actual rate 10.00 mismatches the rate card
expectation 30.00 for ("Sleep In Shift", "Hourly") while triggering no
other checker. -/
def c7row : Row :=
  ⟨"A", .good 637200, .good 640800, "L", "Sleep In Shift", "Hourly", "Sleep In",
   some (.num 10), "", 0⟩

/-- The rate-mismatch issue `check_rate_mismatches` finds on the validated
`[c7row]`. -/
def c7riss : Issue :=
  { issue_type := "Rate Mismatch", employee_name := "A", date := some 8,
    limit_hours := some 30, rate_actual := some 10, shift_type := "Sleep In Shift",
    row_numbers := [2] }

/-- C10 rows: two overlapping day-8 shifts of employee M at different
locations (row numbers 2 and 4) and one day-9 shift (row number 3). -/
def c10w1 : Row := mkShift "M" 637200 666000 "A" "Day Shift" "Hourly" "Long Day" 2

/-- The day-9 row. -/
def c10w2 : Row := mkShift "M" 723600 752400 "A" "Day Shift" "Hourly" "Long Day" 3

/-- The second day-8 row, overlapping `c10w1` by 60 minutes. -/
def c10w3 : Row :=
  mkShift "M" 662400 669600 "B" "Waking Night Shift" "Hourly" "Waking Nights" 4

/-- The one issue the overlap detector emits on `[c10w1, c10w2, c10w3]`. -/
def c10iss : Issue :=
  { issue_type := "Duplicate Allocation", employee_name := "M", date := some 8,
    overlap_minutes := some 60, diff_location := true, diff_shift := true,
    shift_details := [("Day Shift", "A", 637200, 666000),
                      ("Waking Night Shift", "B", 662400, 669600)],
    row_numbers := [2, 4] }

/-! ## C3: `get_week_number` -/

/-- C3 counterexample: on 2024-12-30 the function returns the calendar year
2024 as its second component, while the ISO year of that date is 2025 (both
by the embedded CPython `isocalendar` and by the independent Thursday-rule
characterization), so the function does not return the ISO year. -/
theorem C3_iso_year_counterexample :
  get_week_number (some ⟨2024, 12, 30⟩) = (some 1, some 2024) ∧
  (isocalendar ⟨2024, 12, 30⟩).1 = 2025 ∧
  isoSpecOfOrd (ymd2ord 2024 12 30) = (2025, 1) ∧
  ((2024 : Int) ≠ 2025) := by decide

set_option maxRecDepth 40000 in
/-- C3 amended: `get_week_number` returns `(None, None)` on a null
timestamp, and on a non-null timestamp the ISO-8601 week number (validated
against the independent Thursday-rule characterization on every day of
2019-12-01 through 2022-02-08 and of 2024-12-01 through 2025-03-30)
together with the timestamp's calendar year, which is not in general the
ISO year. -/
theorem C3_week_and_calendar_year :
  get_week_number none = (none, none) ∧
  (∀ d : Date, get_week_number (some d) = (some (isocalendar d).2.1, some d.year)) ∧
  (List.range 800).all (fun i => isoCheckOrd (ymd2ord 2019 12 1 + (i : Int))) = true ∧
  (List.range 120).all (fun i => isoCheckOrd (ymd2ord 2024 12 1 + (i : Int))) = true :=
  ⟨rfl, fun _ => rfl, by decide, by decide⟩

/-! ## C9: `calculate_hours` on reversed endpoints -/

/-- C9 counterexample: a record whose end precedes its start is tolerated
by the row validator (it is not quarantined), but its duration is reported
as -2 hours, not 0 hours. -/
theorem C9_zero_duration_counterexample :
  calculate_hours (startDT c9row) (endDT c9row) = -2 ∧
  ((-2 : ℚ) ≠ 0) ∧
  validationErrorRows [c9row] = [] ∧
  (validRowsOf [c9row]).length = 1 := by with_unfolding_all decide

/-- C9 amended: a record whose start and end both parse is tolerated by the
row validator regardless of their order, and its duration is reported as
the signed difference `(end - start) / 3600` — negative when end precedes
start, not clamped to 0; the duration is 0 only when an endpoint is null. -/
theorem C9_signed_duration :
  (∀ s e : Int, calculate_hours (some s) (some e) = ((e - s : Int) : ℚ) / 3600) ∧
  (∀ s e : Int, e < s → calculate_hours (some s) (some e) < 0) ∧
  (∀ x : Option Int, calculate_hours none x = 0) ∧
  (∀ x : Option Int, calculate_hours x none = 0) ∧
  (∀ r : Row, r.employee ≠ "" → r.service_type ≠ "" →
    (∃ t, r.start_raw = .good t) → (∃ u, r.end_raw = .good u) → rowErrors r = []) := by
  refine ⟨fun s e => rfl, fun s e h => ?_, fun x => by cases x <;> rfl,
    fun x => by cases x <;> rfl, ?_⟩
  · show ((e - s : Int) : ℚ) / 3600 < 0
    apply div_neg_of_neg_of_pos
    · have hz : (e - s : Int) < 0 := by omega
      exact_mod_cast hz
    · norm_num
  · rintro r h1 h2 ⟨t, ht⟩ ⟨u, hu⟩
    simp [rowErrors, ht, hu, h1, h2]

/-- C9 witness: the amended statement at the concrete reversed-endpoint
row. -/
theorem C9_signed_duration_witness :
  calculate_hours (some 640800) (some 633600) < 0 ∧ rowErrors c9row = [] :=
  ⟨C9_signed_duration.2.1 640800 633600 (by decide),
   C9_signed_duration.2.2.2.2 c9row (by decide) (by decide) ⟨640800, rfl⟩ ⟨633600, rfl⟩⟩

/-! ## C8: the pay-rate-sheet lookup key -/

/-- C8: the rate checker builds the 1-tuple key `(sheet_desc,)` but the
deployed rate card keys its sheet-description entry as the plain string
"Zero Hour Pay Rates (SL)" (Python `("…")` is a `str`, not a 1-tuple), so
the sheet-description lookup never succeeds: on a row whose sheet
description matches that entry and whose actual rate 99.00 differs from
the entry's 13.85 by far more than 0.01, no RateMismatch issue is
emitted. -/
theorem C8_sheet_lookup_dead :
  (∀ s : String, lookupRate (.tup1 s) = none) ∧
  lookupRate (.pystr "Zero Hour Pay Rates (SL)") = some (1385 / 100) ∧
  c8row.sheet_desc = "Zero Hour Pay Rates (SL)" ∧
  c8row.pay_rate = some (.num 99) ∧
  check_rate_mismatches [c8row] = [] :=
  ⟨fun _ => rfl, by with_unfolding_all decide, rfl, rfl, by with_unfolding_all decide⟩

/-! ## C2: the aggregate employee-hours check -/

/-- C2 counterexample: with the employee-hour limit table holding
("Alice", 10) and a group of Alice's rows totalling 20 hours, the spec's
aggregate-hours check (modelled by `specAggregateHoursIssues`) emits an
OverAllocation issue naming the total and the limit, but
`check_over_allocations` emits nothing: the checker contains no
aggregate-hours comparison at all. With the deployed configuration (empty
EMPLOYEE_HOUR_LIMITS and the negative sentinel DEFAULT_HOUR_LIMIT = -1)
the spec model also skips every group. -/
theorem C2_aggregate_hours_counterexample :
  EMPLOYEE_HOUR_LIMITS = [] ∧ DEFAULT_HOUR_LIMIT = -1 ∧
  ([c2row].map hoursOf).sum = 20 ∧
  specAggregateHoursIssues [("Alice", 10)] DEFAULT_HOUR_LIMIT [c2row] =
    [{ issue_type := "Over-allocation", employee_name := "Alice", date := some 8,
       actual_hours := some 20, limit_hours := some 10, row_numbers := [2] }] ∧
  check_over_allocations [c2row] = [] ∧
  specAggregateHoursIssues EMPLOYEE_HOUR_LIMITS DEFAULT_HOUR_LIMIT [c2row] = [] := by
  with_unfolding_all decide

/-- C2 amended: the quota checker performs no aggregate employee-hours
check — every issue it emits is a per-(service type, rate type) combo
issue — and under the deployed configuration (empty EMPLOYEE_HOUR_LIMITS,
DEFAULT_HOUR_LIMIT the negative "unbounded" sentinel) the spec's
aggregate check is skipped for every group of every frame, so no
OverAllocation issue is emitted either way. -/
theorem C2_no_aggregate_check :
  (∀ df : List Row, ∀ iss ∈ check_over_allocations df,
    iss.issue_type = "Shift Type Hour Over-allocation") ∧
  (∀ df : List Row, specAggregateHoursIssues EMPLOYEE_HOUR_LIMITS DEFAULT_HOUR_LIMIT df = []) := by
  constructor
  · intro df iss h
    rw [check_over_allocations, List.mem_flatMap] at h
    obtain ⟨k, -, hk⟩ := h
    rw [comboIssues, List.mem_filterMap] at hk
    obtain ⟨combo, -, heq⟩ := hk
    split at heq
    · exact absurd heq (by simp)
    · dsimp only at heq
      split at heq
      · cases Option.some.inj heq
        rfl
      · exact absurd heq (by simp)
  · intro df
    rw [specAggregateHoursIssues, List.filterMap_eq_nil_iff]
    intro k _
    with_unfolding_all rfl

/-- C2 witness: the amended statement at a frame producing one combo
issue. -/
theorem C2_no_aggregate_check_witness :
  c2wiss.issue_type = "Shift Type Hour Over-allocation" ∧
  specAggregateHoursIssues EMPLOYEE_HOUR_LIMITS DEFAULT_HOUR_LIMIT [c2wrow] = [] :=
  ⟨C2_no_aggregate_check.1 [c2wrow] c2wiss (by with_unfolding_all decide),
   C2_no_aggregate_check.2 [c2wrow]⟩

/-! ## C1: quota bucketing and basis -/

/-- A non-empty list all of whose elements equal `k` dedups to `[k]`. -/
theorem all_eq_dedup {α : Type} [DecidableEq α] {l : List α} {k : α}
    (h : ∀ x ∈ l, x = k) (hne : l ≠ []) : l.dedup = [k] := by
  induction l with
  | nil => exact absurd rfl hne
  | cons a t ih =>
    have ha : a = k := h a (List.mem_cons_self a t)
    subst ha
    rcases eq_or_ne t [] with ht | ht
    · subst ht
      simp
    · have hd : t.dedup = [a] := ih (fun x hx => h x (List.mem_cons_of_mem a hx)) ht
      rw [List.dedup_cons_of_mem (List.mem_dedup.mp (by rw [hd]; exact List.mem_singleton_self a)), hd]

/-- filterMap of a function constantly `some k` on the list. -/
theorem filterMap_const_some {α β : Type} (f : α → Option β) (l : List α) (k : β)
    (h : ∀ x ∈ l, f x = some k) : l.filterMap f = l.map (fun _ => k) := by
  induction l with
  | nil => rfl
  | cons a t ih =>
    rw [List.filterMap_cons, h a (List.mem_cons_self a t), List.map_cons,
      ih (fun x hx => h x (List.mem_cons_of_mem a hx))]

/-- A frame all of whose rows share the group key `k` has `[k]` as its key
list. -/
theorem groupKeys_const {df : List Row} {k : String × Int}
    (h : ∀ r ∈ df, keyOf r = some k) (hne : df ≠ []) : groupKeys df = [k] := by
  unfold groupKeys
  rw [filterMap_const_some _ _ _ h]
  refine all_eq_dedup (fun x hx => ?_) (by simpa using hne)
  obtain ⟨r, -, rfl⟩ := List.mem_map.mp hx
  rfl

/-- C1 amended: the quota checker buckets by (employee, calendar day of the
start timestamp) — there is no ISO-week bucketing and no configurable
granularity — and for the ("Day Shift", "Hourly") combination it compares
the summed hours of the day group against the configured limit 15, emitting
exactly one issue reporting the total hours if and only if the total
exceeds 15. -/
theorem C1_quota_day_hours (df : List Row) (emp : String) (d : Int)
    (hne : df ≠ [])
    (hemp : ∀ r ∈ df, r.employee = emp)
    (hdate : ∀ r ∈ df, dateOf r = some d)
    (hsvc : ∀ r ∈ df, r.service_type = "Day Shift")
    (hrt : ∀ r ∈ df, r.rate_type = "Hourly") :
    check_over_allocations df =
      (if 15 < (df.map hoursOf).sum then
        [{ issue_type := "Shift Type Hour Over-allocation", employee_name := emp,
           date := some d, actual_hours := some ((df.map hoursOf).sum),
           limit_hours := some 15, shift_type := "Day Shift (Hourly)",
           row_numbers := df.map (fun r => r.row_num) }]
      else []) := by
  have hkey : ∀ r ∈ df, keyOf r = some (emp, d) := by
    intro r hr
    unfold keyOf
    rw [hdate r hr]
    simp [hemp r hr]
  have hkeys : groupKeys df = [(emp, d)] := groupKeys_const hkey hne
  have hgrp : groupOf df (emp, d) = df := by
    unfold groupOf
    rw [List.filter_eq_self]
    intro r hr
    simpa using hkey r hr
  unfold check_over_allocations
  rw [hkeys, List.flatMap_cons, List.flatMap_nil, List.append_nil, hgrp]
  unfold comboIssues
  have hmap : (df.map (fun r => (r.service_type, r.rate_type))) =
      df.map (fun _ => ("Day Shift", "Hourly")) :=
    List.map_congr_left (fun r hr => by rw [hsvc r hr, hrt r hr])
  have hdd : (df.map (fun r => (r.service_type, r.rate_type))).dedup =
      [("Day Shift", "Hourly")] := by
    rw [hmap]
    refine all_eq_dedup (fun x hx => ?_) (by simpa using hne)
    obtain ⟨r, -, rfl⟩ := List.mem_map.mp hx
    rfl
  rw [hdd, List.filterMap_cons, List.filterMap_nil]
  have hlim : lookupLimit ("Day Shift", "Hourly") = some ⟨"<=", 15⟩ := by
    with_unfolding_all rfl
  rw [hlim]
  have hcg : df.filter (fun r =>
      decide ((r.service_type, r.rate_type) = ("Day Shift", "Hourly"))) = df := by
    rw [List.filter_eq_self]
    intro r hr
    simp [hsvc r hr, hrt r hr]
  dsimp only
  rw [hcg]
  have hop : comboViolation "<=" 15 ((df.map hoursOf).sum) =
      decide (15 < (df.map hoursOf).sum) := by
    unfold comboViolation
    rw [if_pos rfl]
  rw [hop]
  by_cases h15 : 15 < (df.map hoursOf).sum
  · rw [if_pos (by simpa using h15), if_pos h15]
    rfl
  · rw [if_neg (by simpa using h15), if_neg h15]

/-- C1 counterexample: the 16 one-hour "Day Shift"/"Hourly" records of
`cex1` fall in one ISO week (days 8 and 9 share Monday 8; ISO week (1, 2)
by `isocalendar` on both dates) and face the configured limit
`<= 15`, yet `check_over_allocations` emits no issue at all — the checker
buckets by calendar day (daily totals of 8 hours each), not by ISO week,
and compares summed hours rather than a record count. -/
theorem C1_quota_week_counterexample :
  cex1.length = 16 ∧
  cex1.all (fun r => decide (r.employee = "E" ∧ r.service_type = "Day Shift" ∧
    r.rate_type = "Hourly" ∧ hoursOf r = 1)) = true ∧
  cex1.filterMap dateOf = List.replicate 8 8 ++ List.replicate 8 9 ∧
  mondayOfWeek 8 = 8 ∧ mondayOfWeek 9 = 8 ∧
  dateOfOrd 8 = ⟨1, 1, 8⟩ ∧ dateOfOrd 9 = ⟨1, 1, 9⟩ ∧
  isocalendar ⟨1, 1, 8⟩ = (1, 2, 1) ∧ isocalendar ⟨1, 1, 9⟩ = (1, 2, 2) ∧
  lookupLimit ("Day Shift", "Hourly") = some ⟨"<=", 15⟩ ∧
  check_over_allocations cex1 = [] := by
  with_unfolding_all decide

/-- C1 witness: the amended statement at a one-row frame holding 16 hours
of Day Shift/Hourly on one day. -/
theorem C1_quota_day_hours_witness : check_over_allocations [c1wrow] = [c1wiss] := by
  have h := C1_quota_day_hours [c1wrow] "E" 8 (by decide) (by decide) (by decide)
    (by decide) (by decide)
  rw [h]
  with_unfolding_all decide

/-! ## C4 and C5: the pairwise overlap evaluation -/

/-- Conversion between the float minutes comparison of the source and
integer seconds. -/
theorem overlapMinutesGT (z : Int) : ((z : ℚ) / 60 > 15) ↔ 900 < z := by
  rw [gt_iff_lt, lt_div_iff₀ (by norm_num : (0 : ℚ) < 60)]
  norm_num
  exact_mod_cast Iff.rfl

/-- The overlap detector on a frame of two rows of one employee and one
start date, both service types carrying the "shift" marker, both parseable,
presented in start order: the output is exactly the verdict of the pairwise
evaluation of the two rows. -/
theorem check_dup_two (r1 r2 : Row) (emp : String) (s1 e1 s2 e2 : Int)
    (h1 : r1.employee = emp) (h2 : r2.employee = emp)
    (hs1 : r1.start_raw = .good s1) (he1 : r1.end_raw = .good e1)
    (hs2 : r2.start_raw = .good s2) (he2 : r2.end_raw = .good e2)
    (hc1 : containsShiftCI r1.service_type = true)
    (hc2 : containsShiftCI r2.service_type = true)
    (hday : dayOfDT s2 = dayOfDT s1)
    (hord : s1 ≤ s2) :
    check_duplicate_allocations [r1, r2] = (pairIssue? emp r1 r2).toList := by
  have hst1 : startDT r1 = some s1 := by unfold startDT; rw [hs1]; rfl
  have hst2 : startDT r2 = some s2 := by unfold startDT; rw [hs2]; rfl
  have hd1 : dateOf r1 = some (dayOfDT s1) := by unfold dateOf; rw [hst1]; rfl
  have hd2 : dateOf r2 = some (dayOfDT s1) := by unfold dateOf; rw [hst2]; simp [hday]
  have hk1 : keyOf r1 = some (emp, dayOfDT s1) := by unfold keyOf; rw [hd1]; simp [h1]
  have hk2 : keyOf r2 = some (emp, dayOfDT s1) := by unfold keyOf; rw [hd2]; simp [h2]
  have hkey : ∀ r ∈ [r1, r2], keyOf r = some (emp, dayOfDT s1) := by
    intro r hr
    rcases (by simpa using hr : r = r1 ∨ r = r2) with rfl | rfl
    · exact hk1
    · exact hk2
  unfold check_duplicate_allocations
  dsimp only
  have hfilt : [r1, r2].filter (fun r => containsShiftCI r.service_type) = [r1, r2] := by
    rw [List.filter_eq_self]
    intro r hr
    rcases (by simpa using hr : r = r1 ∨ r = r2) with rfl | rfl
    · exact hc1
    · exact hc2
  rw [hfilt, groupKeys_const hkey (by simp), List.flatMap_cons, List.flatMap_nil,
    List.append_nil]
  have hgrp : groupOf [r1, r2] (emp, dayOfDT s1) = [r1, r2] := by
    unfold groupOf
    rw [List.filter_eq_self]
    intro r hr
    simpa using hkey r hr
  rw [hgrp, if_pos (by simp)]
  unfold dupGroupIssues
  have hle : startLEb r1 r2 = true := by
    unfold startLEb
    rw [hst1, hst2]
    exact decide_eq_true hord
  rw [show List.insertionSort (fun a b => startLEb a b = true) [r1, r2] = [r1, r2] by
    simp [List.insertionSort, List.orderedInsert, hle]]
  show ((allPairs [r1, r2]).filterMap fun p => pairIssue? emp p.1 p.2) = _
  rw [show allPairs [r1, r2] = [(r1, r2)] by simp [allPairs]]
  rw [List.filterMap_cons, List.filterMap_nil]
  cases h : pairIssue? emp r1 r2 <;> simp [h]

/-- C4: for two same-employee shift rows of one start date in one detector
group, overlapping in the sense `start1 < end2` and `start2 < end1` and not
suppressed by the same-location allow-list, the overlap is
`min(end1, end2) - max(start1, start2)`: at or below the 15-minute buffer
(900 seconds) no issue is emitted, and above it (in particular at 16
minutes) exactly one issue is emitted reporting that overlap in minutes. -/
theorem C4_overlap_tolerance_boundary (r1 r2 : Row) (emp : String)
    (s1 e1 s2 e2 : Int)
    (h1 : r1.employee = emp) (h2 : r2.employee = emp)
    (hs1 : r1.start_raw = .good s1) (he1 : r1.end_raw = .good e1)
    (hs2 : r2.start_raw = .good s2) (he2 : r2.end_raw = .good e2)
    (hc1 : containsShiftCI r1.service_type = true)
    (hc2 : containsShiftCI r2.service_type = true)
    (hday : dayOfDT s2 = dayOfDT s1)
    (hord : s1 ≤ s2)
    (hovl1 : s1 < e2) (hovl2 : s2 < e1)
    (hallow : ¬(r1.location = r2.location ∧
      (r1.service_type, r2.service_type) ∈ ALLOWED_SAME_LOCATION_OVERLAPS)) :
    (min e1 e2 - max s1 s2 ≤ 900 → check_duplicate_allocations [r1, r2] = []) ∧
    (900 < min e1 e2 - max s1 s2 →
      ∃ iss : Issue, check_duplicate_allocations [r1, r2] = [iss] ∧
        iss.overlap_minutes = some ((min e1 e2 - max s1 s2).fdiv 60)) := by
  rw [check_dup_two r1 r2 emp s1 e1 s2 e2 h1 h2 hs1 he1 hs2 he2 hc1 hc2 hday hord]
  unfold pairIssue?
  rw [show startDT r1 = some s1 from by unfold startDT; rw [hs1]; rfl,
    show endDT r1 = some e1 from by unfold endDT; rw [he1]; rfl,
    show startDT r2 = some s2 from by unfold startDT; rw [hs2]; rfl,
    show endDT r2 = some e2 from by unfold endDT; rw [he2]; rfl]
  dsimp only
  rw [if_pos ⟨hovl1, hovl2⟩]
  constructor
  · intro hle
    rw [if_neg (by rw [overlapMinutesGT]; omega)]
    rfl
  · intro hgt
    rw [if_pos ((overlapMinutesGT _).mpr hgt), if_neg hallow]
    exact ⟨_, rfl, rfl⟩

/-- C4 witness: 15 minutes of overlap produce no issue; 16 minutes produce
exactly one issue reporting 16 minutes. -/
theorem C4_overlap_tolerance_boundary_witness :
    check_duplicate_allocations [c4t1, c4t2] = [] ∧
    (∃ iss : Issue, check_duplicate_allocations [c4r1, c4r2] = [iss] ∧
      iss.overlap_minutes = some 16) := by
  constructor
  · exact (C4_overlap_tolerance_boundary c4t1 c4t2 "J" 637200 666000 665100 676800
      rfl rfl rfl rfl rfl rfl (by with_unfolding_all decide) (by with_unfolding_all decide) (by with_unfolding_all decide) (by with_unfolding_all decide)
      (by with_unfolding_all decide) (by with_unfolding_all decide) (by with_unfolding_all decide)).1 (by with_unfolding_all decide)
  · obtain ⟨iss, hi, ho⟩ := (C4_overlap_tolerance_boundary c4r1 c4r2 "J" 637200 666000
      665040 676800 rfl rfl rfl rfl rfl rfl (by with_unfolding_all decide) (by with_unfolding_all decide) (by with_unfolding_all decide)
      (by with_unfolding_all decide) (by with_unfolding_all decide) (by with_unfolding_all decide) (by with_unfolding_all decide)).2 (by with_unfolding_all decide)
    exact ⟨iss, hi, by rw [ho]; decide⟩

/-- C5: for two same-employee shift rows of one start date in one detector
group whose overlap exceeds the tolerance, the pair is suppressed exactly
when both locations coincide and the ordered (service type 1, service
type 2) pair is allow-listed; otherwise exactly one Duplicate Allocation
issue is emitted naming both shifts with their times and locations, the
overlap, and whether the locations and/or the shift types differ. -/
theorem C5_allowlist_suppression (r1 r2 : Row) (emp : String)
    (s1 e1 s2 e2 : Int)
    (h1 : r1.employee = emp) (h2 : r2.employee = emp)
    (hs1 : r1.start_raw = .good s1) (he1 : r1.end_raw = .good e1)
    (hs2 : r2.start_raw = .good s2) (he2 : r2.end_raw = .good e2)
    (hc1 : containsShiftCI r1.service_type = true)
    (hc2 : containsShiftCI r2.service_type = true)
    (hday : dayOfDT s2 = dayOfDT s1)
    (hord : s1 ≤ s2)
    (hovl1 : s1 < e2) (hovl2 : s2 < e1)
    (htol : 900 < min e1 e2 - max s1 s2) :
    (check_duplicate_allocations [r1, r2] = [] ↔
      (r1.location = r2.location ∧
        (r1.service_type, r2.service_type) ∈ ALLOWED_SAME_LOCATION_OVERLAPS)) ∧
    (¬(r1.location = r2.location ∧
        (r1.service_type, r2.service_type) ∈ ALLOWED_SAME_LOCATION_OVERLAPS) →
      check_duplicate_allocations [r1, r2] =
        [{ issue_type := "Duplicate Allocation", employee_name := emp,
           date := some (dayOfDT s1),
           overlap_minutes := some ((min e1 e2 - max s1 s2).fdiv 60),
           diff_location := decide (r1.location ≠ "" ∧ r2.location ≠ "" ∧
             r1.location ≠ r2.location),
           diff_shift := decide (r1.service_type ≠ "" ∧ r2.service_type ≠ "" ∧
             r1.service_type ≠ r2.service_type),
           shift_details := [(r1.service_type, r1.location, s1, e1),
                             (r2.service_type, r2.location, s2, e2)],
           row_numbers := [r1.row_num, r2.row_num] }]) := by
  rw [check_dup_two r1 r2 emp s1 e1 s2 e2 h1 h2 hs1 he1 hs2 he2 hc1 hc2 hday hord]
  unfold pairIssue?
  rw [show startDT r1 = some s1 from by unfold startDT; rw [hs1]; rfl,
    show endDT r1 = some e1 from by unfold endDT; rw [he1]; rfl,
    show startDT r2 = some s2 from by unfold startDT; rw [hs2]; rfl,
    show endDT r2 = some e2 from by unfold endDT; rw [he2]; rfl]
  dsimp only
  rw [if_pos ⟨hovl1, hovl2⟩, if_pos ((overlapMinutesGT _).mpr htol)]
  by_cases hsl : r1.location = r2.location ∧
      (r1.service_type, r2.service_type) ∈ ALLOWED_SAME_LOCATION_OVERLAPS
  · rw [if_pos hsl]
    exact ⟨by simpa using hsl, fun h => absurd hsl h⟩
  · rw [if_neg hsl]
    exact ⟨by simpa using hsl, fun _ => rfl⟩

/-- C5 witness: a seven-hour overlap at one location with the allow-listed
ordered pair ("Day Shift", "Floating Shift") is suppressed, while the same
shifts at two locations produce exactly one fully populated issue. -/
theorem C5_allowlist_suppression_witness :
    check_duplicate_allocations [c5a1, c5a2] = [] ∧
    check_duplicate_allocations [c5b1, c5b2] =
      [{ issue_type := "Duplicate Allocation", employee_name := "K", date := some 8,
         overlap_minutes := some 420, diff_location := true, diff_shift := true,
         shift_details := [("Day Shift", "A", 637200, 666000),
                           ("Floating Shift", "B", 640800, 669600)],
         row_numbers := [2, 3] }] := by
  constructor
  · exact (C5_allowlist_suppression c5a1 c5a2 "K" 637200 666000 640800 669600
      rfl rfl rfl rfl rfl rfl (by with_unfolding_all decide) (by with_unfolding_all decide) (by with_unfolding_all decide) (by with_unfolding_all decide)
      (by with_unfolding_all decide) (by with_unfolding_all decide) (by with_unfolding_all decide)).1.mpr (by with_unfolding_all decide)
  · have h := (C5_allowlist_suppression c5b1 c5b2 "K" 637200 666000 640800 669600
      rfl rfl rfl rfl rfl rfl (by with_unfolding_all decide) (by with_unfolding_all decide) (by with_unfolding_all decide) (by with_unfolding_all decide)
      (by with_unfolding_all decide) (by with_unfolding_all decide) (by with_unfolding_all decide)).2 (by with_unfolding_all decide)
    rw [h]
    decide

/-! ## C6: whitelist completeness -/

/-- One step of the whitelist checker. -/
theorem unallowed_cons (a : Row) (t : List Row) :
    check_unallowed_combinations (a :: t) =
      (if a.service_type = "" ∨ a.requirement_type = "" then []
       else if (a.service_type, a.requirement_type) ∈ ALLOWED_COMBINATIONS then []
       else [{ issue_type := "Unallowed Combination", employee_name := a.employee,
               date := (parse_datetime a.start_raw).map dayOfDT,
               shift_type := a.service_type,
               row_numbers := [a.row_num] }]) ++ check_unallowed_combinations t := by
  by_cases h1 : a.service_type = "" ∨ a.requirement_type = ""
  · simp [check_unallowed_combinations, List.filterMap_cons, h1]
  · by_cases h2 : (a.service_type, a.requirement_type) ∈ ALLOWED_COMBINATIONS
    · simp [check_unallowed_combinations, List.filterMap_cons, h1, h2]
    · simp [check_unallowed_combinations, List.filterMap_cons, h1, h2]

/-- Every issue of the whitelist checker carries the row number of one row
of the frame. -/
theorem unallowed_shape (df : List Row) (iss : Issue)
    (h : iss ∈ check_unallowed_combinations df) :
    ∃ r ∈ df, iss.row_numbers = [r.row_num] := by
  rw [check_unallowed_combinations, List.mem_filterMap] at h
  obtain ⟨r, hr, heq⟩ := h
  refine ⟨r, hr, ?_⟩
  split at heq
  · exact absurd heq (by simp)
  · split at heq
    · exact absurd heq (by simp)
    · cases Option.some.inj heq
      rfl

/-- C6: on a frame with distinct row numbers, a row with non-empty service
and requirement types receives exactly one UnallowedCombination issue when
its ordered pair is absent from ALLOWED_COMBINATIONS and none when it is
present, and a row with an empty service or requirement type receives
none. -/
theorem C6_whitelist_completeness (df : List Row) (r : Row) (hr : r ∈ df)
    (hnd : (df.map Row.row_num).Nodup) :
    (check_unallowed_combinations df).countP
        (fun iss => decide (iss.row_numbers = [r.row_num])) =
      if r.service_type ≠ "" ∧ r.requirement_type ≠ "" ∧
          (r.service_type, r.requirement_type) ∉ ALLOWED_COMBINATIONS then 1 else 0 := by
  induction df with
  | nil => cases hr
  | cons a t ih =>
    rw [List.map_cons, List.nodup_cons] at hnd
    obtain ⟨hna, hnt⟩ := hnd
    rw [unallowed_cons, List.countP_append]
    rcases List.mem_cons.mp hr with rfl | hrt
    · have htail : (check_unallowed_combinations t).countP
          (fun iss => decide (iss.row_numbers = [r.row_num])) = 0 := by
        rw [List.countP_eq_zero]
        intro iss hiss
        obtain ⟨r2, hr2, hshape⟩ := unallowed_shape t iss hiss
        simp only [hshape, decide_eq_true_eq, List.cons.injEq, and_true]
        intro hcon
        exact hna (hcon ▸ List.mem_map_of_mem Row.row_num hr2)
      rw [htail, Nat.add_zero]
      by_cases h1 : r.service_type = "" ∨ r.requirement_type = ""
      · rw [if_pos h1, if_neg (by tauto)]
        rfl
      · push_neg at h1
        by_cases h2 : (r.service_type, r.requirement_type) ∈ ALLOWED_COMBINATIONS
        · rw [if_neg (by tauto), if_pos h2, if_neg (by tauto)]
          rfl
        · rw [if_neg (by tauto), if_neg h2, if_pos ⟨h1.1, h1.2, h2⟩]
          simp
    · have hhead : ∀ l : List Issue,
          (∀ iss ∈ l, iss.row_numbers = [a.row_num]) →
          l.countP (fun iss => decide (iss.row_numbers = [r.row_num])) = 0 := by
        intro l hl
        rw [List.countP_eq_zero]
        intro iss hiss
        simp only [hl iss hiss, decide_eq_true_eq, List.cons.injEq, and_true]
        intro hcon
        exact hna (hcon.symm ▸ List.mem_map_of_mem Row.row_num hrt)
      rw [hhead _ (by split <;> simp), Nat.zero_add]
      exact ih hrt hnt

/-- C6 witness: the non-whitelisted row ("Unknown", "Foo") is flagged
exactly once and the whitelisted row ("Training", "Training") is not
flagged. -/
theorem C6_whitelist_completeness_witness :
    (check_unallowed_combinations [c6ok, c6bad]).countP
        (fun iss => decide (iss.row_numbers = [c6bad.row_num])) = 1 ∧
    (check_unallowed_combinations [c6ok, c6bad]).countP
        (fun iss => decide (iss.row_numbers = [c6ok.row_num])) = 0 := by
  constructor
  · have h := C6_whitelist_completeness [c6ok, c6bad] c6bad (by decide) (by decide)
    rw [h]
    decide
  · have h := C6_whitelist_completeness [c6ok, c6bad] c6ok (by decide) (by decide)
    rw [h]
    decide

/-! ## C7: the orchestrator -/

/-- C7 counterexample: on `[c7row]` the rate checker finds a mismatch over
the validated rows, yet the orchestrator's output contains no rate issue in
any field and counts zero issues — `check_rate_mismatches` has no call site
in the orchestrator (nor anywhere else in the repository). -/
theorem C7_orchestrator_counterexample :
    check_rate_mismatches (validRowsOf [c7row]) = [c7riss] ∧
    analyze_workforce_data [c7row] = ⟨[], [], [], [], 0, 0, 1, 1⟩ := by
  with_unfolding_all decide

/-- C7 amended: the orchestrator validates rows once and runs exactly three
checkers — overlap, quota, whitelist — independently over the valid subset
(the rate checker is not invoked); a checker slot that raises contributes
an empty issue list plus a synthetic "ANALYSIS ERROR" row carrying the
failure message, and the other checkers' results are unaffected. -/
theorem C7_orchestrator_isolation (df : List Row)
    (dup over unall over2 : List Row → Except String (List Issue)) (e : String)
    (hfail : over (validRowsOf df) = .error e) :
    (analyze_workforce_data df).duplicate_allocations =
      check_duplicate_allocations (validRowsOf df) ∧
    (analyze_workforce_data df).over_allocations =
      check_over_allocations (validRowsOf df) ∧
    (analyze_workforce_data df).unallowed_combinations =
      check_unallowed_combinations (validRowsOf df) ∧
    (analyze_workforce_data df).error_rows = validationErrorRows df ∧
    (analyze_with dup over unall df).over_allocations = [] ∧
    analysisErrorRow "Over-allocation Check" ("Error in over-allocation check: " ++ e) ∈
      (analyze_with dup over unall df).error_rows ∧
    (analyze_with dup over unall df).duplicate_allocations =
      (analyze_with dup over2 unall df).duplicate_allocations ∧
    (analyze_with dup over unall df).unallowed_combinations =
      (analyze_with dup over2 unall df).unallowed_combinations := by
  refine ⟨rfl, rfl, rfl, by simp [analyze_workforce_data, analyze_with], ?_, ?_, rfl, rfl⟩
  · simp [analyze_with, hfail]
  · simp [analyze_with, hfail, List.mem_append]

/-- C7 witness: the isolation statement at a concrete frame with a failing
quota slot. -/
theorem C7_orchestrator_isolation_witness :
    (analyze_with (fun _ => .ok []) (fun _ => .error "boom") (fun _ => .ok [])
      [c7row]).over_allocations = [] ∧
    analysisErrorRow "Over-allocation Check" ("Error in over-allocation check: " ++ "boom") ∈
      (analyze_with (fun _ => .ok []) (fun _ => .error "boom") (fun _ => .ok [])
        [c7row]).error_rows ∧
    (analyze_with (fun _ => .ok []) (fun _ => .error "boom") (fun _ => .ok [])
      [c7row]).duplicate_allocations =
      (analyze_with (fun _ => .ok []) (fun _ => .ok []) (fun _ => .ok [])
        [c7row]).duplicate_allocations := by
  have h := C7_orchestrator_isolation [c7row] (fun _ => .ok [])
    (fun _ => .error "boom") (fun _ => .ok []) (fun _ => .ok []) "boom" rfl
  exact ⟨h.2.2.2.2.1, h.2.2.2.2.2.1, h.2.2.2.2.2.2.1⟩

/-! ## C10: pairs are only compared within (employee, start-date) groups -/

/-- Both components of a pair produced by `allPairs` belong to the list. -/
theorem mem_allPairs {p : Row × Row} : ∀ {l : List Row},
    p ∈ allPairs l → p.1 ∈ l ∧ p.2 ∈ l := by
  intro l
  induction l with
  | nil => intro h; cases h
  | cons a t ih =>
    intro h
    rw [allPairs, List.mem_append] at h
    rcases h with h | h
    · obtain ⟨y, hy, rfl⟩ := List.mem_map.mp h
      exact ⟨List.mem_cons_self a t, List.mem_cons_of_mem a hy⟩
    · obtain ⟨ha, hb⟩ := ih h
      exact ⟨List.mem_cons_of_mem a ha, List.mem_cons_of_mem a hb⟩

/-- A successful pairwise verdict names exactly the two rows' numbers. -/
theorem pairIssue_rows {emp : String} {a b : Row} {iss : Issue}
    (h : pairIssue? emp a b = some iss) :
    iss.row_numbers = [a.row_num, b.row_num] := by
  unfold pairIssue? at h
  split at h
  · split at h
    · split at h
      · split at h
        · exact absurd h (by simp)
        · cases Option.some.inj h
          rfl
      · exact absurd h (by simp)
    · exact absurd h (by simp)
  · exact absurd h (by simp)

/-- Every issue of the overlap detector stems from two rows of the frame
with one common non-null start date, and names exactly their row
numbers. -/
theorem dup_issue_source (df : List Row) (iss : Issue)
    (h : iss ∈ check_duplicate_allocations df) :
    ∃ a ∈ df, ∃ b ∈ df, ∃ d : Int, dateOf a = some d ∧ dateOf b = some d ∧
      iss.row_numbers = [a.row_num, b.row_num] := by
  rw [check_duplicate_allocations] at h
  dsimp only at h
  rw [List.mem_flatMap] at h
  obtain ⟨k, -, hin⟩ := h
  split at hin
  · rw [dupGroupIssues, List.mem_filterMap] at hin
    obtain ⟨p, hp, hpi⟩ := hin
    obtain ⟨hp1, hp2⟩ := mem_allPairs hp
    have hsub := (List.perm_insertionSort
      (fun a b => startLEb a b = true)
      (groupOf (df.filter (fun r => containsShiftCI r.service_type)) k)).subset
    have hg1 := List.mem_filter.mp (hsub hp1)
    have hg2 := List.mem_filter.mp (hsub hp2)
    have hk1 : keyOf p.1 = some k := of_decide_eq_true hg1.2
    have hk2 : keyOf p.2 = some k := of_decide_eq_true hg2.2
    have hda : dateOf p.1 = some k.2 := by
      obtain ⟨d0, hd0, hpair⟩ := Option.map_eq_some'.mp hk1
      rw [hd0]
      rw [show d0 = k.2 from congrArg Prod.snd hpair]
    have hdb : dateOf p.2 = some k.2 := by
      obtain ⟨d0, hd0, hpair⟩ := Option.map_eq_some'.mp hk2
      rw [hd0]
      rw [show d0 = k.2 from congrArg Prod.snd hpair]
    exact ⟨p.1, (List.mem_filter.mp hg1.1).1, p.2, (List.mem_filter.mp hg2.1).1,
      k.2, hda, hdb, pairIssue_rows hpi⟩
  · cases hin

/-- C10: on a frame with distinct row numbers, two rows whose start dates
differ (or whose start date is unparseable) are never named together by a
Duplicate Allocation issue: pairs are only compared within
(employee, start-date) groups. -/
theorem C10_same_day_grouping (df : List Row) (r1 r2 : Row) (iss : Issue)
    (h1 : r1 ∈ df) (h2 : r2 ∈ df)
    (hnd : (df.map Row.row_num).Nodup)
    (hdates : dateOf r1 ≠ dateOf r2 ∨ dateOf r1 = none)
    (hiss : iss ∈ check_duplicate_allocations df) :
    ¬(r1.row_num ∈ iss.row_numbers ∧ r2.row_num ∈ iss.row_numbers) := by
  rintro ⟨m1, m2⟩
  obtain ⟨a, ha, b, hb, d, hda, hdb, hrows⟩ := dup_issue_source df iss hiss
  rw [hrows] at m1 m2
  have inj := List.inj_on_of_nodup_map hnd
  have e1 : r1 = a ∨ r1 = b := by
    rcases (by simpa using m1 : r1.row_num = a.row_num ∨ r1.row_num = b.row_num) with h | h
    · exact Or.inl (inj h1 ha h)
    · exact Or.inr (inj h1 hb h)
  have e2 : r2 = a ∨ r2 = b := by
    rcases (by simpa using m2 : r2.row_num = a.row_num ∨ r2.row_num = b.row_num) with h | h
    · exact Or.inl (inj h2 ha h)
    · exact Or.inr (inj h2 hb h)
  have hd1 : dateOf r1 = some d := by rcases e1 with rfl | rfl; exacts [hda, hdb]
  have hd2 : dateOf r2 = some d := by rcases e2 with rfl | rfl; exacts [hda, hdb]
  rcases hdates with hne | hnone
  · exact hne (hd1.trans hd2.symm)
  · rw [hd1] at hnone
    cases hnone

set_option maxRecDepth 10000 in
/-- C10 witness: the detector flags the two day-8 rows (numbers 2 and 4) of
employee M; the day-8 row 2 and the day-9 row 3 are never named together. -/
theorem C10_same_day_grouping_witness :
    ¬(c10w1.row_num ∈ c10iss.row_numbers ∧ c10w2.row_num ∈ c10iss.row_numbers) :=
  C10_same_day_grouping [c10w1, c10w2, c10w3] c10w1 c10w2 c10iss
    (by decide) (by decide) (by decide) (by decide)
    (by
      rw [show check_duplicate_allocations [c10w1, c10w2, c10w3] = [c10iss] from by
        with_unfolding_all rfl]
      exact List.mem_singleton_self c10iss)
